import Mathlib

/-!
# Verification of the product-catalog authorization core

Shallow embedding of the role/permission/ownership authorization logic of
the product_catalog_api repository, together with theorems settling the
spec's claims about it.

Embedded source artifacts:
* the `permissions` table and `hasPermission` (middleware/permission.js);
* the `checkPermission` and `checkOwnership` middleware factories
  (middleware/permission.js);
* the `protect` middleware's active-user gate (middleware/auth.js);
* the authorization decisions of the `updateProduct`,
  `updateProductVariant` / `deleteProductVariant` and `updateInventory`
  controllers;
* the `where`-clause construction of `getAllProducts` (seller scoping);
* the route middleware chains (productRoutes, inventoryRoutes).

Roles, resources and actions are kept as strings, as in the JavaScript,
so that unknown roles such as "manager" or "editor" are expressible.
-/

namespace ProductCatalog

/-- A verified requester as attached to `req.user` by the `protect`
middleware: user id, role string, active flag. -/
structure AuthUser where
  id : Nat
  role : String
  isActive : Bool
  deriving DecidableEq, Repr

/-- The nested permission object of middleware/permission.js, as an
association list `role ↦ (resource ↦ allowed actions)`.  Content is
verbatim the `permissions` constant of the source. -/
def permissions : List (String × List (String × List String)) :=
  [ ("admin",
      [ ("categories", ["view", "create", "update", "delete"])
      , ("products",   ["view", "create", "update", "delete"])
      , ("variants",   ["view", "create", "update", "delete"])
      , ("inventory",  ["view", "update"])
      , ("reports",    ["view"])
      , ("users",      ["view", "create", "update", "delete"]) ])
  , ("seller",
      [ ("categories", ["view"])
      , ("products",   ["view", "create", "update", "delete"])
      , ("variants",   ["view", "create", "update", "delete"])
      , ("inventory",  ["view", "update"])
      , ("reports",    ["view"])
      , ("users",      ["view"]) ])
  , ("buyer",
      [ ("categories", ["view"])
      , ("products",   ["view"])
      , ("variants",   ["view"])
      , ("inventory",  [])
      , ("reports",    [])
      , ("users",      []) ]) ]

/-- `hasPermission(role, resource, action)` of middleware/permission.js:
missing role ⇒ false, missing resource for the role ⇒ false, otherwise
membership of the action in the allowed list. -/
def hasPermission (role resource action : String) : Bool :=
  match permissions.lookup role with
  | none => false
  | some resMap =>
    match resMap.lookup resource with
    | none => false
    | some actions => actions.contains action

/-- `allowedActions(role, resource)`: the action list the table holds for
the pair, `[]` when the role or the resource is absent (this is the data
`getRolePermissions`/`hasPermission` read). -/
def allowedActions (role resource : String) : List String :=
  match permissions.lookup role with
  | none => []
  | some resMap =>
    match resMap.lookup resource with
    | none => []
    | some actions => actions

/-- Outcome of one Express middleware: pass control on, or answer with an
HTTP status. -/
inductive MwResult where
  | next : MwResult
  | respond : Nat → MwResult
  deriving DecidableEq, Repr

/-- The `checkPermission(resource, action)` middleware of
middleware/permission.js: no user or no role-table permission ⇒ 403,
otherwise `next()`.  There is no admin special case here. -/
def checkPermission (resource action : String) (user : Option AuthUser) :
    MwResult :=
  match user with
  | none => .respond 403
  | some u =>
    if hasPermission u.role resource action then .next else .respond 403

/-- A store read error (connection failure etc.), as thrown by the ORM and
caught by `checkOwnership`'s try/catch. -/
inductive StoreErr where
  | readFailure : StoreErr
  deriving DecidableEq, Repr

/-- The `checkOwnership(model, paramIdField, userIdField)` middleware of
middleware/permission.js, for a present authenticated user.  `fetch`
embeds `model.findByPk`, returning the record's owner-id field when the
record exists; a thrown store error is re-raised via `next(error)`
(modelled as `Except.error`).  Order of checks as in the source: admin
skip, missing-id 400, fetch, missing-record 404, owner-mismatch 403,
otherwise `next()`. -/
def checkOwnership (user : AuthUser) (resourceId : Option Nat)
    (fetch : Nat → Except StoreErr (Option Nat)) :
    Except StoreErr MwResult :=
  if user.role = "admin" then .ok .next
  else
    match resourceId with
    | none => .ok (.respond 400)
    | some rid =>
      match fetch rid with
      | .error e => .error e
      | .ok none => .ok (.respond 404)
      | .ok (some ownerId) =>
        if ownerId ≠ user.id then .ok (.respond 403) else .ok .next

/-- The identity gate of the `protect` middleware (middleware/auth.js)
after token verification and user lookup: no (valid) user ⇒ 401,
deactivated user ⇒ 401, otherwise `next()` with `req.user` set. -/
def protect (user : Option AuthUser) : MwResult :=
  match user with
  | none => .respond 401
  | some u => if u.isActive then .next else .respond 401

/-- The spec's decision alphabet for the authorization gate, with the
authentication failure (HTTP 401) kept separate from `DenyForbidden`
(403), as section 4.4 step 1 requires. -/
inductive Decision where
  | allow : Decision
  | denyAuth : Decision
  | denyForbidden : Decision
  | denyNotFound : Decision
  deriving DecidableEq, Repr

/-- The resource types that carry per-record ownership (spec section 3;
in the source these are exactly the types whose mutating controllers
compare an owner field with `req.user.id`). -/
def ownedResource (r : String) : Bool :=
  r = "products" || r = "variants" || r = "inventory"

/-- The authorization pipeline as the product/variant routes compose it
(productRoutes: `protect`, then `checkPermission(resource, action)`, then
the controller's own ownership logic as in `updateProduct`):

1. absent or inactive user ⇒ 401-deny (`protect`);
2. `hasPermission` fails ⇒ `DenyForbidden` (`checkPermission` — note the
   source has no admin bypass here);
3. for an ownership-carrying resource with a specific record id, the
   controller fetches the record: missing ⇒ 404 (`DenyNotFound`, even for
   admins — `updateProduct` checks existence before the role test), then
   non-admin with a different owner ⇒ 403 (`DenyForbidden`);
4. otherwise the request proceeds (`Allow`).

`fetchOwner` embeds the controller's `findByPk` read of the record's
owner id; `resourceId = none` is a creation request, which skips the
ownership step. -/
def authorize (ctx : Option AuthUser) (resource action : String)
    (resourceId : Option Nat) (fetchOwner : Nat → Option Nat) : Decision :=
  match ctx with
  | none => .denyAuth
  | some u =>
    if ¬ u.isActive then .denyAuth
    else if ¬ hasPermission u.role resource action then .denyForbidden
    else
      match resourceId with
      | none => .allow
      | some rid =>
        if ownedResource resource then
          match fetchOwner rid with
          | none => .denyNotFound
          | some ownerId =>
            if u.role ≠ "admin" ∧ ownerId ≠ u.id then .denyForbidden
            else .allow
        else .allow

/-- A product row, restricted to the owner field the authorization logic
reads (`product.userId`, the seller association of models/product.js). -/
structure ProductRec where
  userId : Nat
  deriving DecidableEq, Repr

/-- A variant row, restricted to its parent-product key
(`variant.productId`). -/
structure VariantRec where
  productId : Nat
  deriving DecidableEq, Repr

/-- An inventory row: linked to a product or to a variant, exactly one of
`productId`/`variantId` non-null in well-formed data (models/inventory.js
allows both columns to be null). -/
structure InventoryRec where
  productId : Option Nat
  variantId : Option Nat
  deriving DecidableEq, Repr

/-- The persistence layer's rows by primary key, as association lists. -/
structure Store where
  products : List (Nat × ProductRec)
  variants : List (Nat × VariantRec)
  inventories : List (Nat × InventoryRec)
  deriving Repr

/-- Ownership-resolution failure: the record (or its parent) is missing. -/
inductive ResolveErr where
  | notFound : ResolveErr
  deriving DecidableEq, Repr

/-- Owner of a product: its `userId` column (`updateProduct` reads
`product.userId` after `Product.findByPk`); missing product ⇒ NotFound
(the controller's 404 branch). -/
def resolveProductOwner (st : Store) (pid : Nat) : Except ResolveErr Nat :=
  match st.products.lookup pid with
  | none => .error .notFound
  | some p => .ok p.userId

/-- Owner of a variant: the owner of its parent product, resolved through
the variant's `productId`, as `updateProductVariant` /
`deleteProductVariant` do (they fetch the parent product, 404 when it is
missing, and compare `product.userId` with the requester). -/
def resolveVariantOwner (st : Store) (vid : Nat) : Except ResolveErr Nat :=
  match st.variants.lookup vid with
  | none => .error .notFound
  | some v => resolveProductOwner st v.productId

/-- The authorization decision of the `updateProduct` controller
(Product_EndPoint.md): `Product.findByPk` misses ⇒ 404; requester not
admin and `product.userId !== req.user.id` ⇒ 403; otherwise the update
proceeds (`Allow`).  Steps after authorization (category validation,
field updates) are outside the decision and elided. -/
def updateProductDecision (user : AuthUser) (pid : Nat) (st : Store) :
    Decision :=
  match st.products.lookup pid with
  | none => .denyNotFound
  | some p =>
    if user.role ≠ "admin" ∧ p.userId ≠ user.id then .denyForbidden
    else .allow

/-- The full `PUT /api/inventory/:id` pipeline as mounted in
inventoryRoutes.js: the route registers only body validators and
`updateInventory` — no `protect`, no `checkPermission`, no ownership
check — and `updateInventory` itself only 404s on a missing record and
otherwise performs the update and answers 200.  The requester argument is
unused, exactly as in the source. -/
def inventoryUpdateRoute (requester : Option AuthUser) (st : Store)
    (rid : Nat) : Nat :=
  match requester, st.inventories.lookup rid with
  | _, none => 404
  | _, some _ => 200

/-- The query parameters of `getAllProducts` that feed the `where`
clause's exact-match constraints.  The free-text / range filters (name,
tags, minPrice, maxPrice) only further restrict the result and are
elided. -/
structure ProductQuery where
  categoryId : Option Nat
  isActive : Option Bool
  isFeatured : Option Bool
  sellerId : Option Nat
  deriving Repr

/-- The `where` constraints `getAllProducts` builds: each field is an
optional equality test on the product row. -/
structure ProductWhere where
  categoryId : Option Nat
  isActive : Option Bool
  isFeatured : Option Bool
  userId : Option Nat
  deriving DecidableEq, Repr

/-- A product row as `getAllProducts` filters it. -/
structure ProductRow where
  userId : Nat
  categoryId : Nat
  isActive : Bool
  isFeatured : Bool
  deriving DecidableEq, Repr

/-- The `where`-clause construction of `getAllProducts`, in source order:
categoryId filter; isActive from the query, else forced to `true` for
requesters who are not an admin; isFeatured filter; `where.userId`
from the `sellerId` query parameter; finally, for a seller requester,
`where.userId = req.user.id`, overwriting any `sellerId`. -/
def buildProductWhere (q : ProductQuery) (user : Option AuthUser) :
    ProductWhere :=
  let w : ProductWhere :=
    { categoryId := q.categoryId, isActive := none, isFeatured := none
      userId := none }
  let w :=
    match q.isActive with
    | some b => { w with isActive := some b }
    | none =>
      match user with
      | some u =>
        if u.role ≠ "admin" then { w with isActive := some true } else w
      | none => { w with isActive := some true }
  let w :=
    match q.isFeatured with
    | some b => { w with isFeatured := some b }
    | none => w
  let w :=
    match q.sellerId with
    | some s => { w with userId := some s }
    | none => w
  match user with
  | some u => if u.role = "seller" then { w with userId := some u.id } else w
  | none => w

/-- Whether a row satisfies every constraint of a `where` clause. -/
def matchesWhere (w : ProductWhere) (row : ProductRow) : Bool :=
  (match w.categoryId with | none => true | some c => row.categoryId = c) &&
  (match w.isActive with | none => true | some b => row.isActive = b) &&
  (match w.isFeatured with | none => true | some b => row.isFeatured = b) &&
  (match w.userId with | none => true | some uid => row.userId = uid)

/-- The row set `getAllProducts` returns: the table filtered by the built
`where` clause (`Product.findAndCountAll({ where, ... })`; pagination and
sorting select among these rows and are elided). -/
def getAllProducts (q : ProductQuery) (user : Option AuthUser)
    (rows : List ProductRow) : List ProductRow :=
  rows.filter (matchesWhere (buildProductWhere q user))

/-- The permission table as spec section 4.1 states it, for comparison
with the source's `allowedActions` (this definition follows the spec's
words, not the code). -/
def specAllowedActions (role resource : String) : List String :=
  if role = "admin" then
    if resource = "categories" then ["view", "create", "update", "delete"]
    else if resource = "products" then ["view", "create", "update", "delete"]
    else if resource = "variants" then ["view", "create", "update", "delete"]
    else if resource = "inventory" then ["view", "update"]
    else if resource = "reports" then ["view"]
    else if resource = "users" then ["view", "create", "update", "delete"]
    else []
  else if role = "seller" then
    if resource = "categories" then ["view"]
    else if resource = "products" then ["view", "create", "update", "delete"]
    else if resource = "variants" then ["view", "create", "update", "delete"]
    else if resource = "inventory" then ["view", "update"]
    else if resource = "reports" then ["view"]
    else if resource = "users" then ["view"]
    else []
  else if role = "buyer" then
    if resource = "categories" then ["view"]
    else if resource = "products" then ["view"]
    else if resource = "variants" then ["view"]
    else []
  else []

/-- Claim C5: the source's permission table agrees with the spec's
section-4.1 table on every (role, resource) pair of the three roles and
six resources; in particular a buyer may not create products, so the
authorization pipeline answers `DenyForbidden` for a buyer's create
request whatever the resource id. -/
theorem permission_table_matches_spec (u : AuthUser) (rid : Option Nat)
    (fetchOwner : Nat → Option Nat)
    (hrole : u.role = "buyer") (hact : u.isActive = true) :
    (∀ role ∈ ["admin", "seller", "buyer"],
      ∀ res ∈ ["categories", "products", "variants", "inventory",
               "reports", "users"],
        allowedActions role res = specAllowedActions role res)
    ∧ hasPermission "buyer" "products" "create" = false
    ∧ authorize (some u) "products" "create" rid fetchOwner
        = .denyForbidden := by
  refine ⟨by decide, by decide, ?_⟩
  have hp : hasPermission "buyer" "products" "create" = false := by decide
  simp [authorize, hact, hrole, hp]

/-- Witness for `permission_table_matches_spec` at a concrete buyer. -/
theorem permission_table_matches_spec_witness :
    authorize (some ⟨9, "buyer", true⟩) "products" "create" (some 3)
        (fun _ => some 1) = .denyForbidden :=
  (permission_table_matches_spec ⟨9, "buyer", true⟩ (some 3)
    (fun _ => some 1) rfl rfl).2.2

/-- Claim C6: `hasPermission` is total and default-deny — any action not
in the table entry for the (role, resource) pair is refused, and unknown
roles such as "manager" or "editor" are refused on every resource and
action. -/
theorem hasPermission_default_deny (role res act : String)
    (h : act ∉ allowedActions role res) :
    hasPermission role res act = false
    ∧ (∀ r a, hasPermission "manager" r a = false)
    ∧ (∀ r a, hasPermission "editor" r a = false) := by
  refine ⟨?_, ?_, ?_⟩
  · unfold hasPermission
    unfold allowedActions at h
    cases hrole : permissions.lookup role with
    | none => rfl
    | some resMap =>
      rw [hrole] at h
      show (match resMap.lookup res with
            | none => false
            | some actions => actions.contains act) = false
      have h' : act ∉ (match resMap.lookup res with
            | none => ([] : List String)
            | some actions => actions) := h
      cases hres : resMap.lookup res with
      | none => rfl
      | some actions =>
        rw [hres] at h'
        have h'' : act ∉ actions := h'
        simpa using h''
  · intro r a
    unfold hasPermission
    have hm : permissions.lookup "manager" = none := by decide
    rw [hm]
  · intro r a
    unfold hasPermission
    have he : permissions.lookup "editor" = none := by decide
    rw [he]

/-- Witness for `hasPermission_default_deny` at a concrete denied
triple. -/
theorem hasPermission_default_deny_witness :
    hasPermission "buyer" "inventory" "view" = false :=
  (hasPermission_default_deny "buyer" "inventory" "view" (by decide)).1

/-- Claim C1 counterexample: an active admin asking to delete an
inventory record is refused by the permission-table check — the source
has no admin short-circuit ahead of `checkPermission`, and admin's table
row lacks (inventory, delete) — so `authorize` does not return `Allow`
for every (resource, action). -/
theorem admin_not_always_allowed :
    authorize (some ⟨1, "admin", true⟩) "inventory" "delete" (some 4)
        (fun _ => some 99) = .denyForbidden := by decide

/-- Claim C1 amended: an active admin is allowed whenever the requested
(resource, action) pair is in admin's table row, regardless of who owns
the record — the ownership comparison never denies an admin; the
permission-table check, however, applies to admin too, and a missing
record still yields `DenyNotFound`. -/
theorem admin_allowed_when_table_permits (u : AuthUser) (res act : String)
    (rid w : Nat) (fetchOwner : Nat → Option Nat)
    (hrole : u.role = "admin") (hact : u.isActive = true)
    (hperm : hasPermission u.role res act = true)
    (hfetch : fetchOwner rid = some w) :
    authorize (some u) res act (some rid) fetchOwner = .allow := by
  rw [hrole] at hperm
  simp [authorize, hact, hperm, hfetch, hrole]

/-- Witness for `admin_allowed_when_table_permits`: an admin updating a
product owned by someone else. -/
theorem admin_allowed_when_table_permits_witness :
    authorize (some ⟨1, "admin", true⟩) "products" "update" (some 5)
        (fun _ => some 99) = .allow :=
  admin_allowed_when_table_permits ⟨1, "admin", true⟩ "products" "update"
    5 99 (fun _ => some 99) rfl rfl (by decide) rfl

/-- Claim C3 counterexample: `checkOwnership` for a non-admin requester
on an existing record owned by someone else answers 403, not 404 — the
source's ownership miss is a forbidden outcome, and 404 is reserved for
the record-missing case. -/
theorem ownership_mismatch_gives_403 :
    checkOwnership ⟨2, "seller", true⟩ (some 7) (fun _ => .ok (some 1))
      = .ok (.respond 403) := rfl

/-- Claim C3 amended: for every non-admin requester, an ownership miss on
an existing record produces the forbidden outcome (403); the not-found
outcome (404) is produced exactly when the record does not exist. -/
theorem ownership_check_status_codes (u : AuthUser) (rid : Nat)
    (fetch : Nat → Except StoreErr (Option Nat))
    (hadm : u.role ≠ "admin") :
    (∀ ownerId, fetch rid = .ok (some ownerId) → ownerId ≠ u.id →
      checkOwnership u (some rid) fetch = .ok (.respond 403))
    ∧ (fetch rid = .ok none →
      checkOwnership u (some rid) fetch = .ok (.respond 404)) := by
  constructor
  · intro ownerId hfetch hne
    simp [checkOwnership, hadm, hfetch, hne]
  · intro hfetch
    simp [checkOwnership, hadm, hfetch]

/-- Witness for `ownership_check_status_codes` at a concrete seller and
store. -/
theorem ownership_check_status_codes_witness :
    checkOwnership ⟨2, "seller", true⟩ (some 7) (fun _ => .ok (some 1))
      = .ok (.respond 403) :=
  (ownership_check_status_codes ⟨2, "seller", true⟩ 7
    (fun _ => .ok (some 1)) (by decide)).1 1 rfl (by decide)

/-- The owner fetch the product routes' controllers perform:
`Product.findByPk` followed by reading `userId`. -/
def fetchProductOwner (st : Store) : Nat → Option Nat :=
  fun pid => (st.products.lookup pid).map ProductRec.userId

/-- Claim C4: the owning seller may update their product (`Allow`), and
any other active seller is refused with `DenyForbidden`. -/
theorem product_update_owner_only (st : Store) (pid : Nat)
    (P : ProductRec) (S S2 : AuthUser)
    (hp : st.products.lookup pid = some P)
    (hS : S.role = "seller") (hSa : S.isActive = true)
    (hSo : P.userId = S.id)
    (hS2 : S2.role = "seller") (hS2a : S2.isActive = true)
    (hS2o : P.userId ≠ S2.id) :
    authorize (some S) "products" "update" (some pid)
        (fetchProductOwner st) = .allow
    ∧ authorize (some S2) "products" "update" (some pid)
        (fetchProductOwner st) = .denyForbidden := by
  have hperm : hasPermission "seller" "products" "update" = true := by
    decide
  have hfetch : fetchProductOwner st pid = some P.userId := by
    simp [fetchProductOwner, hp]
  constructor
  · simp [authorize, hS, hSa, hperm, hfetch, ownedResource, hSo]
  · simp [authorize, hS2, hS2a, hperm, hfetch, ownedResource, hS2o]

/-- Witness for `product_update_owner_only`: product 3 is owned by seller
1; seller 1 is allowed, seller 2 is refused. -/
theorem product_update_owner_only_witness :
    authorize (some ⟨1, "seller", true⟩) "products" "update" (some 3)
        (fetchProductOwner ⟨[(3, ⟨1⟩)], [], []⟩) = .allow
    ∧ authorize (some ⟨2, "seller", true⟩) "products" "update" (some 3)
        (fetchProductOwner ⟨[(3, ⟨1⟩)], [], []⟩) = .denyForbidden :=
  product_update_owner_only ⟨[(3, ⟨1⟩)], [], []⟩ 3 ⟨1⟩
    ⟨1, "seller", true⟩ ⟨2, "seller", true⟩ rfl rfl rfl rfl rfl rfl
    (by decide)

/-- Claim C7: a permitted requester asking about a record id that the
store does not hold gets `DenyNotFound` from the pipeline — never
`DenyForbidden`. -/
theorem missing_record_yields_not_found (u : AuthUser) (res act : String)
    (rid : Nat) (fetchOwner : Nat → Option Nat)
    (hact : u.isActive = true)
    (hperm : hasPermission u.role res act = true)
    (howned : ownedResource res = true)
    (hmiss : fetchOwner rid = none) :
    authorize (some u) res act (some rid) fetchOwner = .denyNotFound
    ∧ authorize (some u) res act (some rid) fetchOwner
        ≠ .denyForbidden := by
  have h : authorize (some u) res act (some rid) fetchOwner
      = .denyNotFound := by
    simp [authorize, hact, hperm, howned, hmiss]
  exact ⟨h, by rw [h]; intro hcon; cases hcon⟩

/-- Witness for `missing_record_yields_not_found`: a seller updating a
product id absent from the store. -/
theorem missing_record_yields_not_found_witness :
    authorize (some ⟨1, "seller", true⟩) "products" "update" (some 99)
        (fetchProductOwner ⟨[(3, ⟨1⟩)], [], []⟩) = .denyNotFound :=
  (missing_record_yields_not_found ⟨1, "seller", true⟩ "products"
    "update" 99 (fetchProductOwner ⟨[(3, ⟨1⟩)], [], []⟩) rfl (by decide)
    (by decide) rfl).1

/-- Claim C8: a variant's owner is its parent product's owner, resolved
through the variant's `productId`; if the parent product is missing the
resolution fails with NotFound. -/
theorem variant_owner_transitive (st : Store) (vid : Nat)
    (V : VariantRec) (hv : st.variants.lookup vid = some V) :
    (∀ P : ProductRec, st.products.lookup V.productId = some P →
      resolveVariantOwner st vid = .ok P.userId)
    ∧ (st.products.lookup V.productId = none →
      resolveVariantOwner st vid = .error .notFound) := by
  constructor
  · intro P hp
    simp [resolveVariantOwner, resolveProductOwner, hv, hp]
  · intro hp
    simp [resolveVariantOwner, resolveProductOwner, hv, hp]

/-- Witness for `variant_owner_transitive`: variant 5 of product 3 owned
by seller 1. -/
theorem variant_owner_transitive_witness :
    resolveVariantOwner ⟨[(3, ⟨1⟩)], [(5, ⟨3⟩)], []⟩ 5 = .ok 1 :=
  (variant_owner_transitive ⟨[(3, ⟨1⟩)], [(5, ⟨3⟩)], []⟩ 5 ⟨3⟩ rfl).1
    ⟨1⟩ rfl

/-- Claim C9: a store-read error inside the ownership check propagates
unchanged (as the middleware's `next(error)` does) and is never turned
into a pass or a 403/404 answer; the only store outcome the check itself
converts is the record-missing case, which becomes the 404 answer. -/
theorem store_error_propagates (u : AuthUser) (rid : Nat)
    (fetch : Nat → Except StoreErr (Option Nat))
    (hadm : u.role ≠ "admin") :
    (∀ e, fetch rid = .error e →
      checkOwnership u (some rid) fetch = .error e)
    ∧ (fetch rid = .ok none →
      checkOwnership u (some rid) fetch = .ok (.respond 404)) := by
  constructor
  · intro e hfetch
    simp [checkOwnership, hadm, hfetch]
  · intro hfetch
    simp [checkOwnership, hadm, hfetch]

/-- Witness for `store_error_propagates` at a concrete failing store. -/
theorem store_error_propagates_witness :
    checkOwnership ⟨2, "seller", true⟩ (some 7)
        (fun _ => .error .readFailure) = .error .readFailure :=
  (store_error_propagates ⟨2, "seller", true⟩ 7
    (fun _ => .error .readFailure) (by decide)).1 .readFailure rfl

/-- The store exhibiting the unguarded inventory update: product 3 is
owned by seller 1, variant 5 belongs to product 3, and inventory row 7
belongs to variant 5. -/
def crossSellerStore : Store :=
  { products := [(3, ⟨1⟩)]
    variants := [(5, ⟨3⟩)]
    inventories := [(7, ⟨none, some 5⟩)] }

/-- Claim C2 evaluation at the failing input: inventory row 7 resolves
(through variant 5 and product 3) to owner seller 1, yet the
`PUT /api/inventory/:id` pipeline answers 200 to seller 2 — and even to
an unauthenticated requester — because the route mounts no
authentication, permission or ownership middleware and the controller
performs no owner comparison. -/
theorem inventory_update_unguarded :
    resolveVariantOwner crossSellerStore 5 = .ok 1
    ∧ (crossSellerStore.inventories.lookup 7).map InventoryRec.variantId
        = some (some 5)
    ∧ inventoryUpdateRoute (some ⟨2, "seller", true⟩) crossSellerStore 7
        = 200
    ∧ inventoryUpdateRoute none crossSellerStore 7 = 200 :=
  ⟨rfl, rfl, rfl, rfl⟩

/-- Claim C10: the product listing seen by an authenticated seller
contains only rows whose `userId` is the seller's own id — the
seller-scoping assignment overwrites any `sellerId` query filter. -/
theorem seller_listing_scoped (q : ProductQuery) (u : AuthUser)
    (rows : List ProductRow) (row : ProductRow)
    (hrole : u.role = "seller")
    (hmem : row ∈ getAllProducts q (some u) rows) :
    row.userId = u.id := by
  have hw : (buildProductWhere q (some u)).userId = some u.id := by
    unfold buildProductWhere
    simp [hrole]
  have hmatch := (List.mem_filter.mp hmem).2
  unfold matchesWhere at hmatch
  rw [hw] at hmatch
  simp at hmatch
  exact hmatch.2

/-- Witness for `seller_listing_scoped`: seller 1's listing holds a row
owned by seller 1. -/
theorem seller_listing_scoped_witness :
    (⟨1, 4, true, false⟩ : ProductRow) ∈
      getAllProducts ⟨none, none, none, some 2⟩ (some ⟨1, "seller", true⟩)
        [⟨1, 4, true, false⟩, ⟨2, 4, true, false⟩]
    ∧ (⟨1, 4, true, false⟩ : ProductRow).userId = 1 :=
  ⟨by decide, seller_listing_scoped ⟨none, none, none, some 2⟩
    ⟨1, "seller", true⟩ [⟨1, 4, true, false⟩, ⟨2, 4, true, false⟩]
    ⟨1, 4, true, false⟩ rfl (by decide)⟩

end ProductCatalog
